import Mathlib

/-!
Verification of the teams-cli authentication/session-refresh subsystem.

The Go source is shallowly embedded: pure logic becomes Lean functions,
HTTP round-trips and the file system become explicit oracles passed as
arguments, the token store becomes an explicit map from logical names to
contents, and the coordinator's mutex becomes a small-step transition
system on a two-caller state.
-/

namespace TeamsCli

/-- Embeds the Go struct deviceCodeResponse (auth_device_code.go). -/
structure deviceCodeResponse where
  deviceCode : String
  userCode : String
  verificationURI : String
  verificationURIComplete : String
  expiresIn : Int
  interval : Int
  message : String
  error : String
  errorDescription : String
deriving Repr, DecidableEq

/-- Embeds the Go struct tokenResponse (auth_device_code.go). -/
structure tokenResponse where
  tokenType : String
  expiresIn : Int
  accessToken : String
  refreshToken : String
  idToken : String
  scope : String
  error : String
  errorDescription : String
deriving Repr, DecidableEq

/-- Resource URI constant skypeResource (auth_device_code.go). -/
def skypeResource : String := "https://api.spaces.skype.com"

/-- Resource URI constant chatSvcResource (auth_device_code.go). -/
def chatSvcResource : String := "https://chatsvcagg.teams.microsoft.com"

/-- Embeds strings.TrimSpace: drop whitespace from both ends.  Defined on
the character list so that it evaluates inside the kernel. -/
def trimSpace (s : String) : String :=
  String.mk
    (((s.data.dropWhile Char.isWhitespace).reverse.dropWhile
      Char.isWhitespace).reverse)

/-- Embeds strings.Join with separator ", ". -/
def joinComma : List String → String
  | [] => ""
  | [x] => x
  | x :: rest => x ++ ", " ++ joinComma rest

/-- Decidable substring test on the underlying character lists, used to
state that an error message does or does not mention some text. -/
def hasSubstringAux (pat : List Char) : List Char → Bool
  | [] => pat.isEmpty
  | c :: t => pat.isPrefixOf (c :: t) || hasSubstringAux pat t

/-- Whether pat occurs contiguously inside s. -/
def hasSubstring (s pat : String) : Bool :=
  hasSubstringAux pat.data s.data

/-- Embeds renderDeviceCodeMessage (auth_device_code.go): the message put
on the TvError text view, or none when nothing is surfaced.  The Go code
first takes the trimmed provider message; only when that is empty does it
build a message from verification_uri_complete, else from
verification_uri plus user_code. -/
def renderDeviceCodeMessage (resp : deviceCodeResponse) : Option String :=
  let msg := trimSpace resp.message
  let msg :=
    if msg = "" then
      if resp.verificationURIComplete ≠ "" then
        "Go to " ++ resp.verificationURIComplete
      else if resp.verificationURI ≠ "" ∧ resp.userCode ≠ "" then
        "Go to " ++ resp.verificationURI ++ " and enter code " ++ resp.userCode
      else ""
    else msg
  if msg = "" then none else some msg

/-- Modelled from the spec: the verification-message preference the spec
sentence describes, preferring verification_uri_complete when present,
else verification_uri plus user_code, said nothing about the provider
message field. -/
def specVerificationMessage (resp : deviceCodeResponse) : Option String :=
  if resp.verificationURIComplete ≠ "" then
    some ("Go to " ++ resp.verificationURIComplete)
  else if resp.verificationURI ≠ "" ∧ resp.userCode ≠ "" then
    some ("Go to " ++ resp.verificationURI ++ " and enter code " ++ resp.userCode)
  else none

/-- The on-disk token store: logical name to file contents.  writeTokenFile
keys files as token-(name).jwt under one private directory, so a logical
name determines the file. -/
def TokenStore := String → Option String

/-- Pure effect of a successful writeTokenFile call on the store
(auth_device_code.go, os.WriteFile overwrites the target). -/
def storeWrite (st : TokenStore) (kind token : String) : TokenStore :=
  fun k => if k = kind then some token else st k

/-- Observable contents of the target path while writeTokenFile runs.
writeTokenFile calls os.WriteFile, which opens the target with O_TRUNC
and then writes, so a concurrent reader can observe the old contents, the
truncated empty file, or the new contents (none models a missing file). -/
def writeTokenFileStates (old : Option String) (token : String) :
    List (Option String) :=
  [old, some "", some token]

/-- Observable contents of the target path for a write-temp-then-rename
implementation: the temporary file is invisible at the target path and
rename is atomic, so a reader sees only the old or the new contents. -/
def renameIntoPlaceStates (old : Option String) (token : String) :
    List (Option String) :=
  [old, some token]

/-- A write is atomic for concurrent readers when every observable state
of the target path is the old contents or the new contents. -/
def atomicForReaders (old : Option String) (token : String)
    (states : List (Option String)) : Prop :=
  ∀ s ∈ states, s = old ∨ s = some token

instance (old : Option String) (token : String)
    (states : List (Option String)) :
    Decidable (atomicForReaders old token states) :=
  inferInstanceAs (Decidable (∀ s ∈ states, _ ∨ _))

/-- Outcome of one HTTP token-endpoint round-trip as the Go code sees it:
a transport error from httpPostForm, a body json.Unmarshal cannot parse,
or a parsed tokenResponse payload. -/
inductive HttpOutcome where
  | transportFailed (msg : String)
  | parseFailed (msg : String)
  | payload (tr : tokenResponse)
deriving Repr, DecidableEq

/-- Effect of writeTokenFile (auth_device_code.go) on the store.  The
file-system oracle writeErr gives the error of UserHomeDir, MkdirAll or
WriteFile for a given logical name, or none when the write succeeds. -/
def writeTokenFile (writeErr : String → Option String) (kind token : String)
    (st : TokenStore) : Except String TokenStore :=
  match writeErr kind with
  | some e => .error e
  | none => .ok (storeWrite st kind token)

/-- Embeds refreshResourceToken (auth_device_code.go).  The provider is
an oracle from the resource URI to the round-trip outcome (tenant and
refresh token are fixed for the session); on success the resource token
is persisted under the label through writeTokenFile, whose file-system
oracle is writeErr. -/
def refreshResourceToken (oracle : String → HttpOutcome)
    (writeErr : String → Option String) (resource label : String)
    (st : TokenStore) : Except String TokenStore :=
  match oracle resource with
  | .transportFailed e => .error e
  | .parseFailed e => .error ("refresh token response parse failed: " ++ e)
  | .payload p =>
    if p.error ≠ "" then
      .error ("refresh token error for " ++ label ++ ": " ++ p.error ++
        " (" ++ p.errorDescription ++ ")")
    else if p.accessToken = "" then
      .error ("refresh token response missing access_token for " ++ label)
    else
      writeTokenFile writeErr label p.accessToken st

/-- Result of the poll loop.  fuelOut is a model artifact of the fuelled
recursion, never reached with enough fuel. -/
inductive PollResult where
  | token (tr : tokenResponse)
  | failure (msg : String)
  | fuelOut
deriving Repr, DecidableEq

/-- One retry iteration of the poll loop: the provider error code that
caused the retry, the poll interval before and after handling it, and the
seconds slept before the next request. -/
structure RetryEvent where
  errCode : String
  intervalBefore : Int
  intervalAfter : Int
  sleepSeconds : Int
deriving Repr, DecidableEq

/-- Embeds the for-loop of pollDeviceCode (auth_device_code.go).  Time is
in whole seconds and advances only by time.Sleep; the oracle gives the
round-trip outcome of the n-th token request; ctxDone tells whether the
context is cancelled at a given time.  Returns the loop result and the
list of retry events in order. -/
def pollLoop (oracle : Nat → HttpOutcome) (ctxDone : Int → Bool)
    (deadline : Int) :
    Nat → Int → Int → Nat → PollResult × List RetryEvent
  | 0, _, _, _ => (.fuelOut, [])
  | fuel + 1, now, interval, attempt =>
    if deadline < now then
      (.failure "device code expired before authorization completed", [])
    else if ctxDone now then
      (.failure "context cancelled", [])
    else
      match oracle attempt with
      | .transportFailed e => (.failure e, [])
      | .parseFailed e => (.failure ("token response parse failed: " ++ e), [])
      | .payload p =>
        if p.error = "" ∧ p.accessToken ≠ "" then (.token p, [])
        else
          match p.error with
          | "authorization_pending" =>
            let r := pollLoop oracle ctxDone deadline fuel (now + interval)
              interval (attempt + 1)
            (r.1, ⟨"authorization_pending", interval, interval, interval⟩ :: r.2)
          | "slow_down" =>
            let r := pollLoop oracle ctxDone deadline fuel
              (now + (interval + 1)) (interval + 1) (attempt + 1)
            (r.1, ⟨"slow_down", interval, interval + 1, interval + 1⟩ :: r.2)
          | "authorization_declined" =>
            (.failure "device code authorization declined", [])
          | "expired_token" => (.failure "device code expired", [])
          | "" =>
            (.failure "device code token response missing access_token", [])
          | e =>
            (.failure ("device code token error: " ++ e ++ " (" ++
              p.errorDescription ++ ")"), [])

/-- Embeds pollDeviceCode (auth_device_code.go): deadline is start plus
expires_in, the initial interval is the device interval clamped to at
least one second, and the loop starts at attempt 0 at the start time. -/
def pollDeviceCode (oracle : Nat → HttpOutcome) (ctxDone : Int → Bool)
    (device : deviceCodeResponse) (start : Int) (fuel : Nat) :
    PollResult × List RetryEvent :=
  pollLoop oracle ctxDone (start + device.expiresIn) fuel start
    (max device.interval 1) 0

/-- The oracle response at an attempt is retryable: a parsed payload whose
error field is authorization_pending or slow_down. -/
def retryableOutcome : HttpOutcome → Prop
  | .payload p => p.error = "authorization_pending" ∨ p.error = "slow_down"
  | _ => False

/-- Well-formedness of a retry-event list relative to the interval the
loop entered with: each event starts from the running interval, slow_down
bumps it by one second and pending keeps it, the sleep equals the updated
interval, and the updated interval is what the next event starts from
(the bump is sticky). -/
def eventsOk : Int → List RetryEvent → Prop
  | _, [] => True
  | iv, e :: rest =>
    e.intervalBefore = iv ∧ e.sleepSeconds = e.intervalAfter ∧
    ((e.errCode = "slow_down" ∧ e.intervalAfter = iv + 1) ∨
      (e.errCode = "authorization_pending" ∧ e.intervalAfter = iv)) ∧
    eventsOk e.intervalAfter rest

/-- Inputs of refreshAuthFromDeviceCode (auth_device_code.go) as oracles:
the disable flag from the environment, the outcome of requestDeviceCode,
the outcome of pollDeviceCode, the token endpoint oracle for the resource
refreshes, and the file-system write oracle. -/
structure DeviceFlowEnv where
  deviceCodeDisabled : Bool
  codeResp : Except String deviceCodeResponse
  pollResp : Except String tokenResponse
  resourceOracle : String → HttpOutcome
  writeErr : String → Option String

/-- Embeds refreshAuthFromDeviceCode (auth_device_code.go): disabled flag
check, device-code request, poll (the verification message side effect
touches only the UI), primary-credential selection (trimmed id_token,
else trimmed access_token), persistence under teams, refresh_token
presence check, then the two resource refreshes.  Returns the outcome and
the resulting token store. -/
def refreshAuthFromDeviceCode (env : DeviceFlowEnv) (st : TokenStore) :
    Except String Unit × TokenStore :=
  if env.deviceCodeDisabled then (.error "device code auth disabled", st)
  else
    match env.codeResp with
    | .error e => (.error e, st)
    | .ok _ =>
      match env.pollResp with
      | .error e => (.error e, st)
      | .ok tr =>
        let teamsToken := trimSpace tr.idToken
        let teamsToken := if teamsToken = "" then trimSpace tr.accessToken
          else teamsToken
        if teamsToken = "" then
          (.error "device code flow did not return an id_token or access_token", st)
        else
          match writeTokenFile env.writeErr "teams" teamsToken st with
          | .error e => (.error e, st)
          | .ok st1 =>
            if tr.refreshToken = "" then
              (.error "device code flow did not return a refresh_token", st1)
            else
              match refreshResourceToken env.resourceOracle env.writeErr
                  skypeResource "skype" st1 with
              | .error e => (.error e, st1)
              | .ok st2 =>
                match refreshResourceToken env.resourceOracle env.writeErr
                    chatSvcResource "chatsvcagg" st2 with
                | .error e => (.error e, st2)
                | .ok st3 => (.ok (), st3)

/-- Candidate helper directory names probed by findTeamsTokenDir. -/
def teamsTokenCandidates : List String := ["teams-token", "teams-token-cli"]

/-- Embeds findTeamsTokenDir: for each search root in order, for each
candidate name in order, the first path that is a directory wins; when
nothing is found the error names the candidate directory names that were
checked.  The file system is the oracle isDir; the search roots come from
candidateSearchRoots. -/
def findTeamsTokenDir (isDir : String → Bool) (searchRoots : List String) :
    Except String String :=
  match searchRoots.findSome? (fun root =>
      teamsTokenCandidates.findSome? (fun c =>
        let path := root ++ "/" ++ c
        if isDir path then some path else none)) with
  | some path => .ok path
  | none =>
    .error ("no teams-token directory found (checked " ++
      joinComma teamsTokenCandidates ++ ")")

/-- Outcome of wrapWithTermEverything: an error, a wrapped command (the
interactive path), or no wrapping (the non-interactive path).  The note
only reaches the log. -/
inductive WrapOutcome where
  | wrapFailed (e : String)
  | wrapped (cmd : String) (note : String)
  | unwrapped (note : String)

/-- Inputs of the coordinator refreshAuthFromTeamsToken as oracles: the
device-flow inputs, the file system and search roots for
findTeamsTokenDir, buildTeamsTokenCommand keyed by the helper directory
(a command is modelled by its command string), wrapWithTermEverything,
the two ways a command is run (interactively under Suspend, or via
CombinedOutput returning the error and the captured output on failure),
and the outcome of the teams_api.New client rebuild. -/
structure CoordEnv where
  device : DeviceFlowEnv
  isDir : String → Bool
  searchRoots : List String
  buildCmd : String → Except String String
  wrap : String → String → WrapOutcome
  runInteractive : String → Option String
  runCombined : String → Option (String × String)
  newClient : Option String

/-- Client-rebuild epilogue shared by both successful paths of
refreshAuthFromTeamsToken. -/
def reinitClient (newClient : Option String) : Except String Unit :=
  match newClient with
  | some e =>
    .error ("unable to reinitialize Teams client after token refresh: " ++ e)
  | none => .ok ()

/-- The fallback half of refreshAuthFromTeamsToken, entered with the
device-code failure deviceErr already in hand.  In the source the
combined branch is guarded by deviceErr being non-nil, which always holds
on this path, so its else arm is unreachable and not modelled. -/
def runFallback (env : CoordEnv) (deviceErr : String) : Except String Unit :=
  match findTeamsTokenDir env.isDir env.searchRoots with
  | .error e => .error e
  | .ok dir =>
    match env.buildCmd dir with
    | .error e => .error e
    | .ok runCmdStr =>
      match env.wrap runCmdStr dir with
      | .wrapFailed e => .error e
      | .wrapped wcmd _ =>
        match env.runInteractive wcmd with
        | some e => .error ("auth refresh command failed: " ++ e)
        | none => reinitClient env.newClient
      | .unwrapped _ =>
        match env.runCombined runCmdStr with
        | some (e, out) =>
          .error ("device code auth failed: " ++ deviceErr ++
            "; electron auth failed: " ++ e ++ " (output: " ++ trimSpace out ++ ")")
        | none => reinitClient env.newClient

/-- Embeds the body of refreshAuthFromTeamsToken (the session-refresh
coordinator): try the device-code path; on success rebuild the client;
on failure run the external-helper fallback.  The mutex around this body
is modelled separately by lockStep. -/
def refreshAuthFromTeamsToken (env : CoordEnv) (st : TokenStore) :
    Except String Unit × TokenStore :=
  match refreshAuthFromDeviceCode env.device st with
  | (.ok _, st1) => (reinitClient env.newClient, st1)
  | (.error deviceErr, st1) => (runFallback env deviceErr, st1)

/-- Where a caller of refreshAuthFromTeamsToken stands: not yet calling,
blocked on authRefreshMu.Lock, inside the locked body (where every
provider round-trip of a refresh happens), or returned. -/
inductive Phase where
  | idle
  | waiting
  | inCS
  | finished
deriving Repr, DecidableEq

/-- Two concurrent callers of refreshAuthFromTeamsToken and the mutex
authRefreshMu; seqCount counts completed device-code/fallback sequences
process-wide. -/
structure LockState where
  lockHeld : Option Bool
  phase0 : Phase
  phase1 : Phase
  seqCount : Nat
deriving Repr, DecidableEq

/-- Phase of caller i. -/
def LockState.phase (s : LockState) (i : Bool) : Phase :=
  if i then s.phase1 else s.phase0

/-- Replace the phase of caller i. -/
def setPhase (s : LockState) (i : Bool) (p : Phase) : LockState :=
  if i then { s with phase1 := p } else { s with phase0 := p }

/-- Interleaving semantics of two callers of refreshAuthFromTeamsToken:
a caller invokes the entry point, acquires authRefreshMu only when free
(a caller whose acquire is not enabled is blocked, which models
mutex blocking), runs one full refresh sequence inside the lock, and
releases on return via the deferred Unlock. -/
inductive lockStep : LockState → LockState → Prop
  | call (i : Bool) (s : LockState) :
      s.phase i = .idle → lockStep s (setPhase s i .waiting)
  | acquire (i : Bool) (s : LockState) :
      s.phase i = .waiting → s.lockHeld = none →
      lockStep s { setPhase s i .inCS with lockHeld := some i }
  | release (i : Bool) (s : LockState) :
      s.phase i = .inCS → s.lockHeld = some i →
      lockStep s { setPhase s i .finished with
        lockHeld := none, seqCount := s.seqCount + 1 }

/-- Both callers yet to call, lock free, no sequence run. -/
def initLockState : LockState := ⟨none, .idle, .idle, 0⟩

/-- States reachable from the initial two-caller state. -/
def lockReach (s : LockState) : Prop :=
  Relation.ReflTransGen lockStep initLockState s

/-- Empty token store. -/
def emptyStore : TokenStore := fun _ => none

/-- Primary credential selected by refreshAuthFromDeviceCode: trimmed
id_token when non-empty, else the trimmed access_token. -/
def primaryCredential (tr : tokenResponse) : String :=
  if trimSpace tr.idToken = "" then trimSpace tr.accessToken
  else trimSpace tr.idToken

lemma hasSubstringAux_nil (l : List Char) : hasSubstringAux [] l = true := by
  induction l with
  | nil => rfl
  | cons c t ih => simp [hasSubstringAux, ih, List.isPrefixOf]

lemma isPrefixOf_append_self (pat post : List Char) :
    pat.isPrefixOf (pat ++ post) = true := by
  rw [List.isPrefixOf_iff_prefix]
  exact List.prefix_append pat post

lemma hasSubstringAux_here (pat post : List Char) :
    hasSubstringAux pat (pat ++ post) = true := by
  cases hp : pat ++ post with
  | nil =>
    rcases List.append_eq_nil.mp hp with ⟨h1, _⟩
    simp [hasSubstringAux, h1]
  | cons c t =>
    rw [hasSubstringAux, ← hp, isPrefixOf_append_self, Bool.true_or]

lemma hasSubstringAux_cons_of (pat : List Char) (c : Char) (t : List Char)
    (h : hasSubstringAux pat t = true) :
    hasSubstringAux pat (c :: t) = true := by
  rw [hasSubstringAux, h, Bool.or_true]

lemma hasSubstringAux_append_left (pat pre rest : List Char)
    (h : hasSubstringAux pat rest = true) :
    hasSubstringAux pat (pre ++ rest) = true := by
  induction pre with
  | nil => simpa using h
  | cons c t ih => exact hasSubstringAux_cons_of _ c _ ih

lemma isPrefixOf_extend (pat l t : List Char)
    (h : pat.isPrefixOf l = true) : pat.isPrefixOf (l ++ t) = true := by
  rw [List.isPrefixOf_iff_prefix] at h ⊢
  exact h.trans (List.prefix_append l t)

lemma hasSubstringAux_append_right (pat l t : List Char)
    (h : hasSubstringAux pat l = true) :
    hasSubstringAux pat (l ++ t) = true := by
  induction l with
  | nil =>
    have hp : pat = [] := by
      simpa [hasSubstringAux, List.isEmpty_iff] using h
    simpa [hp] using hasSubstringAux_nil t
  | cons c r ih =>
    rw [hasSubstringAux] at h
    rcases Bool.or_eq_true_iff.mp h with h1 | h1
    · rw [List.cons_append, hasSubstringAux, ← List.cons_append,
        isPrefixOf_extend _ _ _ h1, Bool.true_or]
    · rw [List.cons_append]
      exact hasSubstringAux_cons_of _ c _ (ih h1)

lemma hasSubstring_append_right (s t pat : String)
    (h : hasSubstring s pat = true) : hasSubstring (s ++ t) pat = true := by
  rw [hasSubstring, String.data_append]
  exact hasSubstringAux_append_right _ _ _ h

lemma hasSubstring_append_self (pre pat : String) :
    hasSubstring (pre ++ pat) pat = true := by
  rw [hasSubstring, String.data_append]
  exact hasSubstringAux_append_left _ _ _
    (by simpa using hasSubstringAux_here pat.data [])

lemma append_ne_empty_left (s t : String) (h : s ≠ "") : s ++ t ≠ "" := by
  intro he
  apply h
  have h2 : s.data ++ t.data = ([] : List Char) := by
    rw [← String.data_append]; exact congrArg String.data he
  rcases List.append_eq_nil.mp h2 with ⟨h3, _⟩
  cases s with
  | mk d => cases h3; rfl

lemma goTo_ne_empty (x : String) : ("Go to " ++ x) ≠ "" :=
  append_ne_empty_left _ _ (by decide)

/- Claim theorems. -/

/-- Device response whose provider-supplied message and verification
fields are all present. -/
def c9Resp : deviceCodeResponse :=
  ⟨"dev-1", "XYZ-123", "https://aka.example/device", "https://aka.example/device?code=XYZ-123",
    900, 5, "Provider message", "", ""⟩

/-- C9 fails as stated: when the provider supplies a non-empty message
field, renderDeviceCodeMessage surfaces that message and ignores
verification_uri_complete, so the surfaced message is not the one the
spec preference order (verification_uri_complete first) produces. -/
theorem C9_counterexample :
    renderDeviceCodeMessage c9Resp = some "Provider message" ∧
    specVerificationMessage c9Resp =
      some "Go to https://aka.example/device?code=XYZ-123" ∧
    renderDeviceCodeMessage c9Resp ≠ specVerificationMessage c9Resp := by
  refine ⟨by decide, by decide, by decide⟩

/-- C9 amended: the surfaced verification message prefers the trimmed
provider message field; only when that is empty does it follow the
claimed preference of verification_uri_complete, else verification_uri
plus user_code, and with none of them available nothing is surfaced. -/
theorem C9_message_preference (resp : deviceCodeResponse) :
    (trimSpace resp.message ≠ "" →
      renderDeviceCodeMessage resp = some (trimSpace resp.message)) ∧
    (trimSpace resp.message = "" →
      renderDeviceCodeMessage resp = specVerificationMessage resp) := by
  constructor
  · intro h
    simp only [renderDeviceCodeMessage]
    rw [if_neg h, if_neg h]
  · intro h
    simp only [renderDeviceCodeMessage, specVerificationMessage]
    rw [if_pos h]
    by_cases h1 : resp.verificationURIComplete ≠ ""
    · rw [if_pos h1, if_pos h1,
        if_neg (goTo_ne_empty resp.verificationURIComplete)]
    · rw [if_neg h1, if_neg h1]
      by_cases h2 : resp.verificationURI ≠ "" ∧ resp.userCode ≠ ""
      · rw [if_pos h2, if_pos h2,
          if_neg (append_ne_empty_left _ _
            (append_ne_empty_left _ _ (goTo_ne_empty resp.verificationURI)))]
      · rw [if_neg h2, if_neg h2, if_pos rfl]

/-- C9 witness: with the provider message present, the surfaced message
is the trimmed provider message. -/
theorem C9_message_preference_witness :
    renderDeviceCodeMessage c9Resp = some "Provider message" :=
  (C9_message_preference c9Resp).1 (by decide)

/-- C3 fails as stated: writeTokenFile writes the target directly with
os.WriteFile (truncate then write) rather than writing a temporary path
and renaming it into place, so a reader concurrent with the write can
observe the truncated empty file, which is neither the old contents nor
the new token. -/
theorem C3_counterexample :
    ¬ atomicForReaders (some "OLD-TOKEN") "NEW-TOKEN"
      (writeTokenFileStates (some "OLD-TOKEN") "NEW-TOKEN") := by decide

/-- C3 amended: the write is a direct os.WriteFile, not atomic for a
concurrent reader (for any non-empty token over contents other than the
empty string the truncated state is observable); the full token is the
final state, and the temp-then-rename pattern the spec asks for would be
atomic. -/
theorem C3_direct_write_not_atomic (old : Option String) (tok : String)
    (hTok : tok ≠ "") (hOld : old ≠ some "") :
    ¬ atomicForReaders old tok (writeTokenFileStates old tok) ∧
    (writeTokenFileStates old tok).getLast? = some (some tok) ∧
    atomicForReaders old tok (renameIntoPlaceStates old tok) := by
  refine ⟨?_, rfl, ?_⟩
  · intro hA
    rcases hA (some "") (by simp [writeTokenFileStates]) with h1 | h1
    · exact hOld h1.symm
    · exact hTok (Option.some.inj h1).symm
  · intro s hs
    simpa [renameIntoPlaceStates] using hs

/-- C3 witness at a concrete old token and new token. -/
theorem C3_direct_write_not_atomic_witness :
    ¬ atomicForReaders (some "eyJhbGci.old") "eyJhbGci.new"
        (writeTokenFileStates (some "eyJhbGci.old") "eyJhbGci.new") ∧
    (writeTokenFileStates (some "eyJhbGci.old") "eyJhbGci.new").getLast? =
      some (some "eyJhbGci.new") ∧
    atomicForReaders (some "eyJhbGci.old") "eyJhbGci.new"
        (renameIntoPlaceStates (some "eyJhbGci.old") "eyJhbGci.new") :=
  C3_direct_write_not_atomic (some "eyJhbGci.old") "eyJhbGci.new"
    (by decide) (by decide)

lemma refreshResourceToken_preserves (oracle : String → HttpOutcome)
    (writeErr : String → Option String) (r l : String) (st st' : TokenStore)
    (h : refreshResourceToken oracle writeErr r l st = .ok st')
    (k : String) (hk : k ≠ l) : st' k = st k := by
  unfold refreshResourceToken at h
  cases ho : oracle r with
  | transportFailed e => rw [ho] at h; exact Except.noConfusion h
  | parseFailed e => rw [ho] at h; exact Except.noConfusion h
  | payload p =>
    rw [ho] at h
    dsimp only at h
    by_cases h1 : p.error ≠ ""
    · rw [if_pos h1] at h; exact Except.noConfusion h
    · rw [if_neg h1] at h
      by_cases h2 : p.accessToken = ""
      · rw [if_pos h2] at h; exact Except.noConfusion h
      · rw [if_neg h2] at h
        unfold writeTokenFile at h
        cases hw : writeErr l with
        | some e => rw [hw] at h; exact Except.noConfusion h
        | none =>
          rw [hw] at h
          injection h with h3
          rw [← h3]
          simp only [storeWrite]
          rw [if_neg hk]

/-- C10 confirmed: when the exchange yields a primary credential but no
refresh_token, the flow returns the missing-refresh_token error and the
returned store already has teams overwritten with the new primary
credential, so state changed although the operation reports failure. -/
theorem C10_persists_despite_missing_refresh_token (env : DeviceFlowEnv)
    (st : TokenStore) (tr : tokenResponse) (c : deviceCodeResponse)
    (hDis : env.deviceCodeDisabled = false)
    (hCode : env.codeResp = .ok c) (hPoll : env.pollResp = .ok tr)
    (hP : primaryCredential tr ≠ "") (hRT : tr.refreshToken = "")
    (hW : env.writeErr "teams" = none) :
    refreshAuthFromDeviceCode env st =
      (.error "device code flow did not return a refresh_token",
        storeWrite st "teams" (primaryCredential tr)) ∧
    (storeWrite st "teams" (primaryCredential tr)) "teams" =
      some (primaryCredential tr) := by
  have hE : (if trimSpace tr.idToken = "" then trimSpace tr.accessToken
      else trimSpace tr.idToken) = primaryCredential tr := rfl
  constructor
  · simp only [refreshAuthFromDeviceCode, hDis, hCode, hPoll,
      Bool.false_eq_true, if_false, hE]
    rw [if_neg hP]
    unfold writeTokenFile
    rw [hW, hRT]
    simp
  · simp [storeWrite]

/-- C7 confirmed: after a successful token exchange the credential
persisted under teams is the trimmed id_token when that is non-empty,
else the trimmed access_token; when both trim to empty the flow fails
with the fatal error and the store is unchanged. -/
theorem C7_primary_credential (env : DeviceFlowEnv) (st : TokenStore)
    (tr : tokenResponse) (c : deviceCodeResponse)
    (hDis : env.deviceCodeDisabled = false)
    (hCode : env.codeResp = .ok c) (hPoll : env.pollResp = .ok tr) :
    (primaryCredential tr = "" →
      refreshAuthFromDeviceCode env st =
        (.error "device code flow did not return an id_token or access_token",
          st)) ∧
    (primaryCredential tr ≠ "" → env.writeErr "teams" = none →
      (refreshAuthFromDeviceCode env st).2 "teams" =
        some (primaryCredential tr)) ∧
    (trimSpace tr.idToken ≠ "" →
      primaryCredential tr = trimSpace tr.idToken) ∧
    (trimSpace tr.idToken = "" →
      primaryCredential tr = trimSpace tr.accessToken) := by
  have hE : (if trimSpace tr.idToken = "" then trimSpace tr.accessToken
      else trimSpace tr.idToken) = primaryCredential tr := rfl
  refine ⟨?_, ?_, ?_, ?_⟩
  · intro hP
    simp only [refreshAuthFromDeviceCode, hDis, hCode, hPoll,
      Bool.false_eq_true, if_false, hE]
    rw [if_pos hP]
  · intro hP hW
    simp only [refreshAuthFromDeviceCode, hDis, hCode, hPoll,
      Bool.false_eq_true, if_false, hE]
    rw [if_neg hP]
    unfold writeTokenFile
    rw [hW]
    dsimp only
    have hTeams : (storeWrite st "teams" (primaryCredential tr)) "teams" =
        some (primaryCredential tr) := by simp [storeWrite]
    by_cases hRT : tr.refreshToken = ""
    · rw [if_pos hRT]
      exact hTeams
    · rw [if_neg hRT]
      cases h1 : refreshResourceToken env.resourceOracle env.writeErr
          skypeResource "skype" (storeWrite st "teams" (primaryCredential tr)) with
      | error e => exact hTeams
      | ok st2 =>
        dsimp only
        have h1p := refreshResourceToken_preserves _ _ _ _ _ _ h1 "teams"
          (by decide)
        cases h2 : refreshResourceToken env.resourceOracle env.writeErr
            chatSvcResource "chatsvcagg" st2 with
        | error e => exact h1p.trans hTeams
        | ok st3 =>
          dsimp only
          have h2p := refreshResourceToken_preserves _ _ _ _ _ _ h2 "teams"
            (by decide)
          exact (h2p.trans h1p).trans hTeams
  · intro h1
    unfold primaryCredential
    rw [if_neg h1]
  · intro h1
    unfold primaryCredential
    rw [if_pos h1]

/-- Device-code response used by the flow witnesses. -/
def wCode : deviceCodeResponse :=
  ⟨"abc", "XYZ-123", "https://aka.example/device", "", 900, 5, "", "", ""⟩

/-- Token response with a primary credential but no refresh_token. -/
def wTokNoRefresh : tokenResponse :=
  ⟨"Bearer", 3600, "AT1", "", "IDT1", "openid", "", ""⟩

/-- Token response carrying id_token, access_token and refresh_token. -/
def wTokFull : tokenResponse :=
  ⟨"Bearer", 3600, "AT1", "RT1", "IDT1", "openid", "", ""⟩

/-- Device-flow inputs for the C10 witness. -/
def c10Env : DeviceFlowEnv :=
  ⟨false, .ok wCode, .ok wTokNoRefresh, fun _ => .transportFailed "unused",
    fun _ => none⟩

/-- C10 witness: with id_token IDT1 and empty refresh_token the flow
errors yet returns the store with teams overwritten to IDT1. -/
theorem C10_persists_witness :
    refreshAuthFromDeviceCode c10Env emptyStore =
      (.error "device code flow did not return a refresh_token",
        storeWrite emptyStore "teams" "IDT1") ∧
    (storeWrite emptyStore "teams" "IDT1") "teams" = some "IDT1" :=
  C10_persists_despite_missing_refresh_token c10Env emptyStore wTokNoRefresh
    wCode rfl rfl rfl (by decide) rfl rfl

/-- Device-flow inputs for the C7 witness. -/
def c7Env : DeviceFlowEnv :=
  ⟨false, .ok wCode, .ok wTokFull,
    fun _ => .payload ⟨"Bearer", 3600, "AT2", "", "", "", "", ""⟩,
    fun _ => none⟩

/-- C7 witness: with id_token IDT1 present, the credential stored under
teams is IDT1. -/
theorem C7_primary_credential_witness :
    (refreshAuthFromDeviceCode c7Env emptyStore).2 "teams" = some "IDT1" :=
  (C7_primary_credential c7Env emptyStore wTokFull wCode rfl rfl rfl).2.1
    (by decide) rfl

lemma pollLoop_eventsOk (oracle : Nat → HttpOutcome) (ctxDone : Int → Bool)
    (deadline : Int) :
    ∀ fuel now interval attempt,
      eventsOk interval
        (pollLoop oracle ctxDone deadline fuel now interval attempt).2 := by
  intro fuel
  induction fuel with
  | zero => intro now interval attempt; simp [pollLoop, eventsOk]
  | succ n ih =>
    intro now interval attempt
    simp only [pollLoop]
    split
    · simp [eventsOk]
    · split
      · simp [eventsOk]
      · cases hOr : oracle attempt with
        | transportFailed e => simp [eventsOk]
        | parseFailed e => simp [eventsOk]
        | payload p =>
          dsimp only
          split
          · simp [eventsOk]
          · split
            · dsimp only
              exact ⟨rfl, rfl, Or.inr ⟨rfl, rfl⟩, ih _ _ _⟩
            · dsimp only
              exact ⟨rfl, rfl, Or.inl ⟨rfl, rfl⟩, ih _ _ _⟩
            · simp [eventsOk]
            · simp [eventsOk]
            · simp [eventsOk]
            · simp [eventsOk]

lemma eventsOk_bounds (evs : List RetryEvent) :
    ∀ iv : Int, eventsOk iv evs →
      ∀ e ∈ evs, iv ≤ e.intervalBefore ∧
        e.intervalBefore ≤ e.intervalAfter ∧
        e.sleepSeconds = e.intervalAfter ∧
        (e.errCode = "slow_down" → e.intervalAfter = e.intervalBefore + 1) ∧
        (e.errCode = "authorization_pending" →
          e.intervalAfter = e.intervalBefore) := by
  induction evs with
  | nil => intro iv _ e he; cases he
  | cons a rest ih =>
    intro iv h e he
    obtain ⟨hb, hs, hor, hrest⟩ := h
    rcases List.mem_cons.mp he with he | he
    · subst he
      rcases hor with ⟨hc, ha⟩ | ⟨hc, ha⟩
      · refine ⟨le_of_eq hb.symm, by omega, hs, fun _ => by omega, ?_⟩
        intro hc2
        rw [hc] at hc2
        exact absurd hc2 (by decide)
      · refine ⟨le_of_eq hb.symm, by omega, hs, ?_, fun _ => by omega⟩
        intro hc2
        rw [hc] at hc2
        exact absurd hc2 (by decide)
    · have hstep := ih a.intervalAfter hrest e he
      have : iv ≤ a.intervalAfter := by
        rcases hor with ⟨_, ha⟩ | ⟨_, ha⟩ <;> omega
      exact ⟨le_trans this hstep.1, hstep.2⟩

/-- C5 confirmed: in every polling session each slow_down bumps the poll
interval by exactly one second and pending keeps it, the updated interval
is what the next retry starts from (the bump is sticky, never reset nor
decreased), and every sleep before a retry equals the current interval,
hence is at least it. -/
theorem C5_slow_down_sticky (oracle : Nat → HttpOutcome)
    (ctxDone : Int → Bool) (device : deviceCodeResponse) (start : Int)
    (fuel : Nat) :
    eventsOk (max device.interval 1)
      (pollDeviceCode oracle ctxDone device start fuel).2 ∧
    ∀ e ∈ (pollDeviceCode oracle ctxDone device start fuel).2,
      max device.interval 1 ≤ e.intervalBefore ∧
      e.intervalBefore ≤ e.intervalAfter ∧
      e.sleepSeconds = e.intervalAfter ∧
      (e.errCode = "slow_down" → e.intervalAfter = e.intervalBefore + 1) ∧
      (e.errCode = "authorization_pending" →
        e.intervalAfter = e.intervalBefore) := by
  have h := pollLoop_eventsOk oracle ctxDone (start + device.expiresIn) fuel
    start (max device.interval 1) 0
  exact ⟨h, eventsOk_bounds _ _ h⟩

/-- Oracle for the C5 witness: slow_down once, then pending, then a
token. -/
def c5Oracle : Nat → HttpOutcome := fun n =>
  if n = 0 then .payload ⟨"", 0, "", "", "", "", "slow_down", ""⟩
  else if n = 1 then
    .payload ⟨"", 0, "", "", "", "", "authorization_pending", ""⟩
  else .payload ⟨"Bearer", 3600, "AT1", "RT1", "IDT1", "", "", ""⟩

/-- Device session for the C5 witness. -/
def c5Device : deviceCodeResponse := ⟨"dc", "u", "v", "vc", 100, 5, "", "", ""⟩

/-- C5 witness at the slow_down retry of a concrete session: its interval
went from five to six seconds, six seconds were slept, and the bump is
the stated plus-one. -/
theorem C5_slow_down_sticky_witness :
    (5 : Int) ≤ 5 ∧ (5 : Int) ≤ 6 ∧ (6 : Int) = 6 ∧
    (("slow_down" : String) = "slow_down" → (6 : Int) = 5 + 1) ∧
    (("slow_down" : String) = "authorization_pending" → (6 : Int) = 5) :=
  (C5_slow_down_sticky c5Oracle (fun _ => false) c5Device 0 10).2
    ⟨"slow_down", 5, 6, 6⟩ (by decide)

lemma pollLoop_retryable_expires (oracle : Nat → HttpOutcome)
    (ctxDone : Int → Bool) (deadline : Int)
    (hO : ∀ n, retryableOutcome (oracle n)) (hC : ∀ t, ctxDone t = false) :
    ∀ fuel now interval attempt, 1 ≤ interval → 1 ≤ fuel →
      (deadline + 2 - now).toNat ≤ fuel →
      (pollLoop oracle ctxDone deadline fuel now interval attempt).1 =
        .failure "device code expired before authorization completed" := by
  intro fuel
  induction fuel with
  | zero => intro now interval attempt _ h2 _; omega
  | succ n ih =>
    intro now interval attempt hIv _ hB
    simp only [pollLoop]
    split
    · rfl
    · next hNow =>
      split
      · next hCtx => rw [hC now] at hCtx; exact absurd hCtx (by decide)
      · have hR := hO attempt
        cases hOr : oracle attempt with
        | transportFailed e => rw [hOr] at hR; exact hR.elim
        | parseFailed e => rw [hOr] at hR; exact hR.elim
        | payload p =>
          rw [hOr] at hR
          dsimp only
          have hne : ¬(p.error = "" ∧ p.accessToken ≠ "") := by
            rintro ⟨h1, _⟩
            rcases hR with h | h <;> rw [h1] at h <;> exact absurd h (by decide)
          rw [if_neg hne]
          rcases hR with h | h <;> rw [h]
          · exact ih (now + interval) interval (attempt + 1) hIv (by omega)
              (by omega)
          · exact ih (now + (interval + 1)) (interval + 1) (attempt + 1)
              (by omega) (by omega) (by omega)

/-- C6 confirmed: when every provider response is retryable (pending or
slow_down) and the context is never cancelled, the poll loop terminates
once wall-clock time passes the session expiry, failing fast with the
expiry error; enough fuel for that many iterations always exists because
each retry sleeps at least one second. -/
theorem C6_poll_expires (oracle : Nat → HttpOutcome) (ctxDone : Int → Bool)
    (device : deviceCodeResponse) (start : Int) (fuel : Nat)
    (hO : ∀ n, retryableOutcome (oracle n)) (hC : ∀ t, ctxDone t = false)
    (hFuel : (device.expiresIn + 2).toNat ≤ fuel) (hFuel1 : 1 ≤ fuel) :
    (pollDeviceCode oracle ctxDone device start fuel).1 =
      .failure "device code expired before authorization completed" := by
  unfold pollDeviceCode
  exact pollLoop_retryable_expires oracle ctxDone (start + device.expiresIn)
    hO hC fuel start (max device.interval 1) 0 (le_max_right _ _) hFuel1
    (by omega)

/-- Token response with the pending error code only. -/
def pendingTok : tokenResponse := ⟨"", 0, "", "", "", "", "authorization_pending", ""⟩

/-- Device session that expires after one second. -/
def c6Device : deviceCodeResponse := ⟨"dc", "u", "v", "vc", 1, 5, "", "", ""⟩

/-- C6 witness: a session with expires_in of one second and only pending
responses terminates with the expiry error. -/
theorem C6_poll_expires_witness :
    (pollDeviceCode (fun _ => .payload pendingTok) (fun _ => false) c6Device
      0 4).1 =
      .failure "device code expired before authorization completed" :=
  C6_poll_expires (fun _ => .payload pendingTok) (fun _ => false) c6Device 0 4
    (fun _ => Or.inl rfl) (fun _ => rfl) (by decide) (by decide)

/-- Oracle for C4: the skype resource round-trip yields an unparsable
body, any other resource a valid token. -/
def c4Oracle : String → HttpOutcome := fun r =>
  if r = skypeResource then .parseFailed "unexpected end of JSON input"
  else .payload ⟨"Bearer", 3600, "AT2", "", "", "", "", ""⟩

/-- C4 fails as stated: a parse failure on a resource refresh is returned
as the bare parse error, which does not include the resource label, so
not every per-resource failure is a named failure carrying the label. -/
theorem C4_counterexample :
    refreshResourceToken c4Oracle (fun _ => none) skypeResource "skype"
      emptyStore =
      .error "refresh token response parse failed: unexpected end of JSON input" ∧
    hasSubstring
      "refresh token response parse failed: unexpected end of JSON input"
      "skype" = false :=
  ⟨rfl, by decide⟩

/-- C4 amended: each resource refresh is independent — its outcome is a
function of the oracle at its own resource URI alone, and a valid
response for one resource yields its token no matter what happened at any
other — and the failures reported through the provider error field or a
missing access_token name the resource label; transport and parse
failures are returned without the label. -/
theorem C4_resource_independence (oracle oracle2 : String → HttpOutcome)
    (writeErr : String → Option String) (r l : String) (st : TokenStore)
    (p : tokenResponse) :
    (oracle r = oracle2 r →
      refreshResourceToken oracle writeErr r l st =
        refreshResourceToken oracle2 writeErr r l st) ∧
    (oracle r = .payload p → p.error = "" → p.accessToken ≠ "" →
      writeErr l = none →
      refreshResourceToken oracle writeErr r l st =
        .ok (storeWrite st l p.accessToken)) ∧
    (oracle r = .payload p → p.error ≠ "" →
      ∃ msg, refreshResourceToken oracle writeErr r l st = .error msg ∧
        hasSubstring msg l = true) ∧
    (oracle r = .payload p → p.error = "" → p.accessToken = "" →
      refreshResourceToken oracle writeErr r l st =
        .error ("refresh token response missing access_token for " ++ l) ∧
      hasSubstring
        ("refresh token response missing access_token for " ++ l) l =
        true) := by
  refine ⟨?_, ?_, ?_, ?_⟩
  · intro h
    unfold refreshResourceToken
    rw [h]
  · intro hOr hE hA hW
    unfold refreshResourceToken
    rw [hOr]
    dsimp only
    rw [if_neg (fun hc => hc hE), if_neg hA]
    unfold writeTokenFile
    rw [hW]
  · intro hOr hE
    unfold refreshResourceToken
    rw [hOr]
    dsimp only
    rw [if_pos hE]
    refine ⟨_, rfl, ?_⟩
    exact hasSubstring_append_right _ _ _ (hasSubstring_append_right _ _ _
      (hasSubstring_append_right _ _ _ (hasSubstring_append_right _ _ _
        (hasSubstring_append_right _ _ _
          (hasSubstring_append_self "refresh token error for " l)))))
  · intro hOr hE hA
    unfold refreshResourceToken
    rw [hOr]
    dsimp only
    rw [if_neg (fun hc => hc hE), if_pos hA]
    exact ⟨rfl, hasSubstring_append_self _ _⟩

/-- C4 witness: with the oracle under which skype fails, the chat
aggregation resource still refreshes to a valid stored token. -/
theorem C4_resource_independence_witness :
    refreshResourceToken c4Oracle (fun _ => none) chatSvcResource
      "chatsvcagg" emptyStore =
      .ok (storeWrite emptyStore "chatsvcagg" "AT2") :=
  (C4_resource_independence c4Oracle c4Oracle (fun _ => none) chatSvcResource
    "chatsvcagg" emptyStore ⟨"Bearer", 3600, "AT2", "", "", "", "", ""⟩).2.1
    rfl rfl (by decide) rfl

lemma findTeamsTokenDir_none (isDir : String → Bool)
    (roots : List String)
    (h : ∀ root ∈ roots, ∀ c ∈ teamsTokenCandidates,
      isDir (root ++ "/" ++ c) = false) :
    findTeamsTokenDir isDir roots =
      .error "no teams-token directory found (checked teams-token, teams-token-cli)" := by
  unfold findTeamsTokenDir
  have hNone : (roots.findSome? (fun root =>
      teamsTokenCandidates.findSome? (fun c =>
        let path := root ++ "/" ++ c
        if isDir path then some path else none))) = none := by
    rw [List.findSome?_eq_none_iff]
    intro root hr
    rw [List.findSome?_eq_none_iff]
    intro c hc
    simp [h root hr c hc]
  rw [hNone]
  rfl

/-- C8 confirmed: with device-code auth disabled the coordinator falls
straight through to the fallback path carrying the disabled error, with
the token store untouched and no dependence on the device-code oracles;
and when no candidate helper directory exists under any search root the
coordinator returns the toolchain-missing error, which names both of the
searched directory names. -/
theorem C8_disabled_skips_to_fallback (env : CoordEnv) (st : TokenStore)
    (hDis : env.device.deviceCodeDisabled = true) :
    (refreshAuthFromTeamsToken env st =
      (runFallback env "device code auth disabled", st)) ∧
    ((∀ root ∈ env.searchRoots, ∀ c ∈ teamsTokenCandidates,
        env.isDir (root ++ "/" ++ c) = false) →
      refreshAuthFromTeamsToken env st =
        (.error "no teams-token directory found (checked teams-token, teams-token-cli)",
          st) ∧
      hasSubstring
        "no teams-token directory found (checked teams-token, teams-token-cli)"
        "teams-token" = true ∧
      hasSubstring
        "no teams-token directory found (checked teams-token, teams-token-cli)"
        "teams-token-cli" = true) := by
  have h1 : refreshAuthFromTeamsToken env st =
      (runFallback env "device code auth disabled", st) := by
    unfold refreshAuthFromTeamsToken refreshAuthFromDeviceCode
    rw [hDis]
    rfl
  refine ⟨h1, ?_⟩
  intro hNo
  have hD := findTeamsTokenDir_none env.isDir env.searchRoots hNo
  refine ⟨?_, by decide, by decide⟩
  rw [h1]
  unfold runFallback
  rw [hD]

/-- Device-flow inputs for the C8 witness: disabled by configuration. -/
def c8DeviceEnv : DeviceFlowEnv :=
  ⟨true, .error "unused", .error "unused", fun _ => .transportFailed "unused",
    fun _ => none⟩

/-- Coordinator inputs for the C8 witness: no helper directory exists
under either search root. -/
def c8Env : CoordEnv :=
  ⟨c8DeviceEnv, fun _ => false, ["/workdir", "/bindir"],
    fun _ => .error "unused", fun _ _ => .unwrapped "", fun _ => none,
    fun _ => none, none⟩

/-- C8 witness: the coordinator with device code disabled and no helper
directory returns the toolchain-missing error naming the candidates. -/
theorem C8_disabled_skips_to_fallback_witness :
    refreshAuthFromTeamsToken c8Env emptyStore =
      (.error "no teams-token directory found (checked teams-token, teams-token-cli)",
        emptyStore) :=
  (((C8_disabled_skips_to_fallback c8Env emptyStore rfl).2)
    (fun _ _ _ _ => rfl)).1

/-- Coordinator inputs for the C2 counterexample: the device-code path
fails (disabled) and the fallback fails before running anything because
no helper directory exists. -/
def c2Env : CoordEnv :=
  ⟨⟨true, .error "unused", .error "unused", fun _ => .transportFailed "unused",
      fun _ => none⟩,
    fun _ => false, ["/workdir"], fun _ => .error "unused",
    fun _ _ => .unwrapped "", fun _ => none, fun _ => none, none⟩

/-- C2 fails as stated: both paths fail, yet the coordinator returns only
the toolchain-missing error of the fallback; the device-code failure is
not named in it, so the error is not the claimed combined error. -/
theorem C2_counterexample :
    refreshAuthFromDeviceCode c2Env.device emptyStore =
      (.error "device code auth disabled", emptyStore) ∧
    refreshAuthFromTeamsToken c2Env emptyStore =
      (.error "no teams-token directory found (checked teams-token, teams-token-cli)",
        emptyStore) ∧
    hasSubstring
      "no teams-token directory found (checked teams-token, teams-token-cli)"
      "device code auth disabled" = false :=
  ⟨rfl, rfl, by decide⟩

/-- C2 amended: after a device-code failure, the combined error naming
both the device-code failure and the fallback failure is produced only
when the helper command runs non-interactively and exits with failure;
fallback failures before any command runs (no helper directory, no
supported runner, display-wrap failure) and interactive run failures are
returned alone, without the device-code failure. -/
theorem C2_combined_error_only_non_interactive (env : CoordEnv)
    (st st1 : TokenStore) (dErr : String)
    (hDev : refreshAuthFromDeviceCode env.device st = (.error dErr, st1)) :
    (∀ dir cmdStr note e out,
      findTeamsTokenDir env.isDir env.searchRoots = .ok dir →
      env.buildCmd dir = .ok cmdStr →
      env.wrap cmdStr dir = .unwrapped note →
      env.runCombined cmdStr = some (e, out) →
      refreshAuthFromTeamsToken env st =
        (.error ("device code auth failed: " ++ dErr ++
          "; electron auth failed: " ++ e ++ " (output: " ++
          trimSpace out ++ ")"), st1) ∧
      hasSubstring ("device code auth failed: " ++ dErr ++
        "; electron auth failed: " ++ e ++ " (output: " ++
        trimSpace out ++ ")") dErr = true ∧
      hasSubstring ("device code auth failed: " ++ dErr ++
        "; electron auth failed: " ++ e ++ " (output: " ++
        trimSpace out ++ ")") e = true) ∧
    (∀ e, findTeamsTokenDir env.isDir env.searchRoots = .error e →
      refreshAuthFromTeamsToken env st = (.error e, st1)) ∧
    (∀ dir cmdStr wcmd note e,
      findTeamsTokenDir env.isDir env.searchRoots = .ok dir →
      env.buildCmd dir = .ok cmdStr →
      env.wrap cmdStr dir = .wrapped wcmd note →
      env.runInteractive wcmd = some e →
      refreshAuthFromTeamsToken env st =
        (.error ("auth refresh command failed: " ++ e), st1)) := by
  have hCoord : refreshAuthFromTeamsToken env st =
      (runFallback env dErr, st1) := by
    unfold refreshAuthFromTeamsToken
    rw [hDev]
  refine ⟨?_, ?_, ?_⟩
  · intro dir cmdStr note e out hFind hBuild hWrap hRun
    rw [hCoord]
    unfold runFallback
    rw [hFind]
    dsimp only
    rw [hBuild]
    dsimp only
    rw [hWrap]
    dsimp only
    rw [hRun]
    refine ⟨rfl, ?_, ?_⟩
    · exact hasSubstring_append_right _ _ _ (hasSubstring_append_right _ _ _
        (hasSubstring_append_right _ _ _ (hasSubstring_append_right _ _ _
          (hasSubstring_append_right _ _ _
            (hasSubstring_append_self "device code auth failed: " dErr)))))
    · exact hasSubstring_append_right _ _ _ (hasSubstring_append_right _ _ _
        (hasSubstring_append_right _ _ _ (hasSubstring_append_self
          ("device code auth failed: " ++ dErr ++
            "; electron auth failed: ") e)))
  · intro e hFind
    rw [hCoord]
    unfold runFallback
    rw [hFind]
  · intro dir cmdStr wcmd note e hFind hBuild hWrap hRun
    rw [hCoord]
    unfold runFallback
    rw [hFind]
    dsimp only
    rw [hBuild]
    dsimp only
    rw [hWrap]
    dsimp only
    rw [hRun]

/-- Coordinator inputs for the C2 witness: device code disabled, helper
directory present under the work dir, runnable non-interactively, and the
run fails. -/
def c2RunEnv : CoordEnv :=
  ⟨⟨true, .error "unused", .error "unused", fun _ => .transportFailed "unused",
      fun _ => none⟩,
    fun p => p == "/workdir/teams-token", ["/workdir"],
    fun _ => .ok "go run .", fun _ _ => .unwrapped "term.everything not found",
    fun _ => none, fun _ => some ("exit status 1", " build failed "), none⟩

/-- C2 witness: on the non-interactive run-failure path the returned
error names both the device-code failure and the helper failure. -/
theorem C2_combined_error_witness :
    refreshAuthFromTeamsToken c2RunEnv emptyStore =
      (.error "device code auth failed: device code auth disabled; electron auth failed: exit status 1 (output: build failed)",
        emptyStore) ∧
    hasSubstring
      "device code auth failed: device code auth disabled; electron auth failed: exit status 1 (output: build failed)"
      "device code auth disabled" = true ∧
    hasSubstring
      "device code auth failed: device code auth disabled; electron auth failed: exit status 1 (output: build failed)"
      "exit status 1" = true := by
  have h := (C2_combined_error_only_non_interactive c2RunEnv emptyStore
    emptyStore "device code auth disabled" rfl).1 "/workdir/teams-token"
    "go run ." "term.everything not found" "exit status 1" " build failed "
    rfl rfl rfl rfl
  exact ⟨h.1, h.2.1, h.2.2⟩

/-- Lock invariant: a caller is inside the locked body exactly when it
holds authRefreshMu. -/
def lockInv (s : LockState) : Prop :=
  ∀ i : Bool, s.phase i = .inCS ↔ s.lockHeld = some i

lemma lockStep_preserves_inv (s s' : LockState) (h : lockStep s s')
    (hI : lockInv s) : lockInv s' := by
  cases h with
  | call i s hp =>
    intro j
    cases i <;> cases j <;>
      simp_all [setPhase, LockState.phase, lockInv]
  | acquire i s hp hl =>
    intro j
    cases i <;> cases j <;>
      simp_all [setPhase, LockState.phase, lockInv]
  | release i s hp hl =>
    intro j
    cases i <;> cases j <;>
      simp_all [setPhase, LockState.phase, lockInv]

lemma lockReach_inv (s : LockState) (h : lockReach s) : lockInv s := by
  induction h with
  | refl => intro i; cases i <;> simp [initLockState, LockState.phase]
  | tail _ hstep ih => exact lockStep_preserves_inv _ _ hstep ih

/-- C1 amended: the mutex gives mutual exclusion — in every reachable
state at most one caller is inside the locked refresh body, so no two
provider round-trips are concurrent, and a waiting caller can enter only
when the lock is free (it blocks while the other caller holds it); but
each caller that enters runs its own full refresh sequence, so two
callers produce two sequences, serialized, rather than exactly one. -/
theorem C1_mutex_serializes :
    (∀ s, lockReach s → ¬(s.phase0 = .inCS ∧ s.phase1 = .inCS)) ∧
    (∀ s s' : LockState, ∀ i : Bool, lockStep s s' → s.phase i = .waiting →
      s'.phase i = .inCS → s.lockHeld = none) := by
  constructor
  · intro s hs ⟨h0, h1⟩
    have hI := lockReach_inv s hs
    have e0 := (hI false).mp h0
    have e1 := (hI true).mp h1
    rw [e0] at e1
    exact Bool.false_ne_true (Option.some.inj e1)
  · intro s s' i hstep hw hc
    cases hstep with
    | call j s hp =>
      cases i <;> cases j <;> simp_all [setPhase, LockState.phase]
    | acquire j s hp hl =>
      cases i <;> cases j <;> simp_all [setPhase, LockState.phase]
    | release j s hp hl =>
      cases i <;> cases j <;> simp_all [setPhase, LockState.phase]

/-- Final state of a two-caller run in which the second caller arrived
while the first was refreshing, blocked, then ran its own sequence. -/
def bothDoneState : LockState := ⟨none, .finished, .finished, 2⟩

/-- C1 fails as stated: a complete run of two concurrent callers is
reachable in which both called before either finished, the refreshes were
serialized, and yet two device-code/fallback sequences executed, not
exactly one — the second caller reruns the flow instead of observing the
first's outcome. -/
theorem C1_counterexample :
    lockReach bothDoneState ∧ bothDoneState.seqCount = 2 ∧
    bothDoneState.seqCount ≠ 1 := by
  refine ⟨?_, rfl, by decide⟩
  have h1 : lockStep ⟨none, .idle, .idle, 0⟩ ⟨none, .waiting, .idle, 0⟩ :=
    lockStep.call false ⟨none, .idle, .idle, 0⟩ rfl
  have h2 : lockStep ⟨none, .waiting, .idle, 0⟩ ⟨none, .waiting, .waiting, 0⟩ :=
    lockStep.call true ⟨none, .waiting, .idle, 0⟩ rfl
  have h3 : lockStep ⟨none, .waiting, .waiting, 0⟩
      ⟨some false, .inCS, .waiting, 0⟩ :=
    lockStep.acquire false ⟨none, .waiting, .waiting, 0⟩ rfl rfl
  have h4 : lockStep ⟨some false, .inCS, .waiting, 0⟩
      ⟨none, .finished, .waiting, 1⟩ :=
    lockStep.release false ⟨some false, .inCS, .waiting, 0⟩ rfl rfl
  have h5 : lockStep ⟨none, .finished, .waiting, 1⟩
      ⟨some true, .finished, .inCS, 1⟩ :=
    lockStep.acquire true ⟨none, .finished, .waiting, 1⟩ rfl rfl
  have h6 : lockStep ⟨some true, .finished, .inCS, 1⟩
      ⟨none, .finished, .finished, 2⟩ :=
    lockStep.release true ⟨some true, .finished, .inCS, 1⟩ rfl rfl
  exact Relation.ReflTransGen.head h1 (Relation.ReflTransGen.head h2
    (Relation.ReflTransGen.head h3 (Relation.ReflTransGen.head h4
      (Relation.ReflTransGen.head h5 (Relation.ReflTransGen.head h6
        Relation.ReflTransGen.refl)))))

/-- C1 witness: mutual exclusion instantiated at the reachable state in
which the first caller is refreshing and the second is blocked. -/
theorem C1_mutex_serializes_witness :
    ¬((⟨some false, .inCS, .waiting, 0⟩ : LockState).phase0 = .inCS ∧
      (⟨some false, .inCS, .waiting, 0⟩ : LockState).phase1 = .inCS) :=
  C1_mutex_serializes.1 ⟨some false, .inCS, .waiting, 0⟩
    (Relation.ReflTransGen.head
      (lockStep.call false ⟨none, .idle, .idle, 0⟩ rfl)
      (Relation.ReflTransGen.head
        (lockStep.call true ⟨none, .waiting, .idle, 0⟩ rfl)
        (Relation.ReflTransGen.head
          (lockStep.acquire false ⟨none, .waiting, .waiting, 0⟩ rfl rfl)
          Relation.ReflTransGen.refl)))

end TeamsCli
